import Mathlib

/-!
Verification of the rate-controlled load-generation harness repeated in
`tests/az_asr_test.py` and `tests/az_translation_test.py`: the credential
cache (`AzureKeyManager` / `AzureTranslationKeyManager`), the worker
functions (`test_asr_short_audio_api`, `test_transcription_api`,
`test_text_translation_api`), the even-RPM dispatcher, and the result
aggregation of `run_test_even_rpm`.

Machine reals (Python floats used for times and rates) are modelled as ℚ;
JSON dicts as structures; exceptions as explicit outcome constructors.
Each worker is embedded as a total function from an environment (file
presence, credential-slot content, outcome of the single service call) to
the observable effects: the record appended to the shared result list, the
invocations of the collaborator's `/keys/status` endpoint, and the number
of calls issued to the target service.
-/

namespace AzLoad

/-- A credential as served by the key manager: the `{key, region}` dict held
in the class variable `current_key`. -/
structure Credential where
  key : String
  region : String
deriving DecidableEq

/-- One POST to the collaborator's status endpoint (`report_status`, i.e. an
actual invocation of `{base}/keys/status`). -/
structure StatusReport where
  key : String
  code : Nat
  note : String
deriving DecidableEq

/-- `report_key_status_safe(key, status_code, note)`: when `status_code == 200`
it returns `{'success': True}` immediately and never calls `report_status`;
otherwise it calls `report_status` exactly once (any exception inside is
caught, so the invocation list is all a caller can observe). The returned
list is the sequence of status-endpoint invocations performed. -/
def report_key_status_safe (key : String) (status_code : Nat) (note : String) :
    List StatusReport :=
  if status_code = 200 then [] else [⟨key, status_code, note⟩]

/-- The 8-tuple appended to `result_list` in every worker's `finally` block:
`(success, total_time, time_to_first_chunk, input_size, output_size,
error_msg, request_id, text)`. -/
structure RequestResult where
  success : Bool
  total_time : ℚ
  time_to_first_chunk : Option ℚ
  input_size : Nat
  output_size : Nat
  error_msg : String
  request_id : String
  text : String
deriving DecidableEq

/-- Modelled shape of Python's `traceback.format_exc()`: a traceback header
followed by the exception text, so the formatted string always carries the
raising exception's message. -/
def format_exc (excMsg : String) : String :=
  "Traceback (most recent call last): ... Exception: " ++ excMsg

/-- Outcome of the single `requests.post` to the target service as seen by the
worker's handlers.  `httpResponse` carries a parsed JSON body description; a
2xx reply whose body is not valid JSON surfaces as `transportError` with the
response attached (requests' `JSONDecodeError` is a `RequestException`). -/
inductive CallOutcome (σ : Type) where
  | httpResponse (status : Nat) (body : σ) (bodyLen : Nat) (respText : String)
  | timeout
  | transportError (excMsg : String) (respStatus : Option Nat)
  | unexpectedError (excMsg : String)
deriving DecidableEq

/-- Environment of one worker invocation: whether the audio file exists, the
byte count of the request payload, the credential-slot content observed by
`get_azure_key_with_retry`, the outcome of the service call, the measured
elapsed time and the generated request id. -/
structure WorkerEnv (σ : Type) where
  fileExists : Bool
  inputBytes : Nat
  cred : Option Credential
  call : CallOutcome σ
  elapsed : ℚ
  requestId : String
deriving DecidableEq

/-- The worker-local variables at the moment the `finally` block runs, plus
the effects performed on the way there. -/
structure BranchData where
  success : Bool
  error_msg : String
  input_size : Nat
  output_size : Nat
  text : String
  reports : List StatusReport
  serviceCalls : Nat
deriving DecidableEq

/-- Observable result of one worker invocation. -/
structure WorkerOutput where
  appended : List RequestResult
  reports : List StatusReport
  serviceCalls : Nat
deriving DecidableEq

/-- The record a worker's `finally` block appends. -/
def mkResult {σ : Type} (env : WorkerEnv σ) (b : BranchData) : RequestResult :=
  { success := b.success, total_time := env.elapsed, time_to_first_chunk := none,
    input_size := b.input_size, output_size := b.output_size,
    error_msg := b.error_msg, request_id := env.requestId, text := b.text }

/-- `ASR_AUDIO_FILE` (its final module-level assignment). -/
def asrAudioFile : String := "asr_vad_punc_example.wav"

/-- Parsed 2xx JSON body of the transcription endpoint, as discriminated by
`test_transcription_api`: the `results.channels` format with or without a
`lexical` text, the `combinedPhrases` format with or without a `text`, or
neither (`dump` is `json.dumps(result_data)`). -/
inductive TranscriptionBody where
  | channelsLexical (text : String)
  | channelsNoLexical
  | combinedText (text : String)
  | combinedNoText
  | otherShape (dump : String)
deriving DecidableEq

/-- Body of `test_transcription_api` (az_asr_test.py): the `try` block and its
handlers, producing the variables the `finally` block records plus the
performed effects. -/
def transcriptionBranches (env : WorkerEnv TranscriptionBody) : BranchData :=
  if env.fileExists = false then
    { success := false, error_msg := "音频文件未找到: " ++ asrAudioFile,
      input_size := 0, output_size := 0, text := "", reports := [], serviceCalls := 0 }
  else
    match env.cred with
    | none =>
        { success := false,
          error_msg := "意外错误: " ++ format_exc "无法获取可用的Azure密钥"
              ++ " (ID: " ++ env.requestId ++ ")",
          input_size := 0, output_size := 0, text := "", reports := [], serviceCalls := 0 }
    | some k =>
        match env.call with
        | .httpResponse status body bodyLen respText =>
            if status = 429 then
              { success := false,
                error_msg := "请求过多 (429) (ID: " ++ env.requestId ++ ")",
                input_size := env.inputBytes, output_size := 0, text := "",
                reports := report_key_status_safe k.key 429 "Rate limit exceeded",
                serviceCalls := 1 }
            else if status = 401 ∨ status = 403 ∨ status = 404 then
              { success := false,
                error_msg := "密钥无效 (" ++ toString status ++ ") (ID: "
                    ++ env.requestId ++ ")",
                input_size := env.inputBytes, output_size := 0, text := "",
                reports := report_key_status_safe k.key status
                    ("Key invalid: " ++ toString status),
                serviceCalls := 1 }
            else if 200 ≤ status ∧ status < 300 then
              match body with
              | .channelsLexical t =>
                  { success := true, error_msg := "", input_size := env.inputBytes,
                    output_size := bodyLen, text := t,
                    reports := report_key_status_safe k.key 200 "Transcription success",
                    serviceCalls := 1 }
              | .channelsNoLexical =>
                  { success := false,
                    error_msg := "转录响应格式异常: 未找到文本内容 (ID: "
                        ++ env.requestId ++ ")",
                    input_size := env.inputBytes, output_size := bodyLen, text := "",
                    reports := report_key_status_safe k.key 200
                        ("Transcription format error: "
                          ++ ("转录响应格式异常: 未找到文本内容 (ID: "
                              ++ env.requestId ++ ")").take 100),
                    serviceCalls := 1 }
              | .combinedText t =>
                  { success := true, error_msg := "", input_size := env.inputBytes,
                    output_size := bodyLen, text := t,
                    reports := report_key_status_safe k.key 200 "Transcription success",
                    serviceCalls := 1 }
              | .combinedNoText =>
                  { success := false,
                    error_msg := "转录响应格式异常(新格式): 未找到文本内容 (ID: "
                        ++ env.requestId ++ ")",
                    input_size := env.inputBytes, output_size := bodyLen, text := "",
                    reports := report_key_status_safe k.key 200
                        ("Transcription format error: "
                          ++ ("转录响应格式异常(新格式): 未找到文本内容 (ID: "
                              ++ env.requestId ++ ")").take 100),
                    serviceCalls := 1 }
              | .otherShape dump =>
                  { success := false,
                    error_msg := "转录响应格式异常: " ++ dump.take 200
                        ++ " (ID: " ++ env.requestId ++ ")",
                    input_size := env.inputBytes, output_size := bodyLen, text := "",
                    reports := report_key_status_safe k.key 200
                        ("Transcription format error: "
                          ++ ("转录响应格式异常: " ++ dump.take 200
                              ++ " (ID: " ++ env.requestId ++ ")").take 100),
                    serviceCalls := 1 }
            else
              { success := false,
                error_msg :=
                  (if respText = "" then
                    "HTTP错误 (" ++ toString status ++ ") (ID: " ++ env.requestId ++ ")"
                  else
                    "HTTP错误 (" ++ toString status ++ ") (ID: " ++ env.requestId ++ ")"
                      ++ " | 响应: " ++ respText.take 200),
                input_size := env.inputBytes, output_size := 0, text := "",
                reports := report_key_status_safe k.key status
                    ("HTTP error: " ++ toString status),
                serviceCalls := 1 }
        | .timeout =>
            { success := false,
              error_msg := "请求超时 (ID: " ++ env.requestId ++ ")",
              input_size := env.inputBytes, output_size := 0, text := "",
              reports := report_key_status_safe k.key 408 "Request timeout",
              serviceCalls := 1 }
        | .transportError m r =>
            match r with
            | none =>
                { success := false,
                  error_msg := "请求异常: " ++ m ++ " (ID: " ++ env.requestId ++ ")",
                  input_size := env.inputBytes, output_size := 0, text := "",
                  reports := [], serviceCalls := 1 }
            | some s =>
                { success := false,
                  error_msg := "请求异常: " ++ m ++ " (ID: " ++ env.requestId ++ ")"
                      ++ " | 状态码: " ++ toString s,
                  input_size := env.inputBytes, output_size := 0, text := "",
                  reports := report_key_status_safe k.key s
                      ("Request exception: " ++ m.take 100),
                  serviceCalls := 1 }
        | .unexpectedError m =>
            { success := false,
              error_msg := "意外错误: " ++ format_exc m ++ " (ID: " ++ env.requestId ++ ")",
              input_size := env.inputBytes, output_size := 0, text := "",
              reports := report_key_status_safe k.key 500
                  ("Unexpected error: " ++ m.take 100),
              serviceCalls := 1 }

/-- `test_transcription_api`: the branch outcome wrapped with the
unconditional `finally` append. -/
def test_transcription_api (env : WorkerEnv TranscriptionBody) : WorkerOutput :=
  { appended := [mkResult env (transcriptionBranches env)],
    reports := (transcriptionBranches env).reports,
    serviceCalls := (transcriptionBranches env).serviceCalls }

/-- Parsed 2xx JSON body of the short-audio ASR endpoint as read by
`test_asr_short_audio_api`: `RecognitionStatus` via `.get` (so `"Unknown"`
when the field is absent) and the optional `DisplayText`. -/
structure AsrBody where
  recognitionStatus : String
  displayText : Option String
deriving DecidableEq

/-- Body of `test_asr_short_audio_api` (az_asr_test.py). -/
def asrBranches (env : WorkerEnv AsrBody) : BranchData :=
  if env.fileExists = false then
    { success := false, error_msg := "ASR音频文件未找到: " ++ asrAudioFile,
      input_size := 0, output_size := 0, text := "", reports := [], serviceCalls := 0 }
  else
    match env.cred with
    | none =>
        { success := false,
          error_msg := "意外错误: " ++ format_exc "无法获取可用的Azure密钥"
              ++ " (ID: " ++ env.requestId ++ ")",
          input_size := 0, output_size := 0, text := "", reports := [], serviceCalls := 0 }
    | some k =>
        match env.call with
        | .httpResponse status body bodyLen respText =>
            if status = 429 then
              { success := false,
                error_msg := "请求过多 (429) (ID: " ++ env.requestId ++ ")",
                input_size := env.inputBytes, output_size := 0, text := "",
                reports := report_key_status_safe k.key 429 "Rate limit exceeded",
                serviceCalls := 1 }
            else if status = 401 ∨ status = 403 ∨ status = 404 then
              { success := false,
                error_msg := "密钥无效 (" ++ toString status ++ ") (ID: "
                    ++ env.requestId ++ ")",
                input_size := env.inputBytes, output_size := 0, text := "",
                reports := report_key_status_safe k.key status
                    ("Key invalid: " ++ toString status),
                serviceCalls := 1 }
            else if 200 ≤ status ∧ status < 300 then
              if body.recognitionStatus = "Success" then
                { success := true, error_msg := "", input_size := env.inputBytes,
                  output_size := bodyLen,
                  text := body.displayText.getD "未找到识别文本",
                  reports := report_key_status_safe k.key 200 "ASR success",
                  serviceCalls := 1 }
              else if body.recognitionStatus = "NoMatch" then
                { success := false,
                  error_msg := "ASR无匹配: 未能识别语音内容 (ID: " ++ env.requestId ++ ")",
                  input_size := env.inputBytes, output_size := bodyLen, text := "",
                  reports := report_key_status_safe k.key 200 "ASR no match",
                  serviceCalls := 1 }
              else
                { success := false,
                  error_msg := "ASR非成功状态: " ++ body.recognitionStatus
                      ++ " (ID: " ++ env.requestId ++ ")",
                  input_size := env.inputBytes, output_size := bodyLen, text := "",
                  reports := report_key_status_safe k.key 200
                      ("ASR recognition failed: " ++ body.recognitionStatus),
                  serviceCalls := 1 }
            else
              { success := false,
                error_msg :=
                  (if respText = "" then
                    "HTTP错误 (" ++ toString status ++ ") (ID: " ++ env.requestId ++ ")"
                  else
                    "HTTP错误 (" ++ toString status ++ ") (ID: " ++ env.requestId ++ ")"
                      ++ " | 响应: " ++ respText.take 200),
                input_size := env.inputBytes, output_size := 0, text := "",
                reports := report_key_status_safe k.key status
                    ("HTTP error: " ++ toString status),
                serviceCalls := 1 }
        | .timeout =>
            { success := false,
              error_msg := "请求超时 (ID: " ++ env.requestId ++ ")",
              input_size := env.inputBytes, output_size := 0, text := "",
              reports := report_key_status_safe k.key 408 "Request timeout",
              serviceCalls := 1 }
        | .transportError m r =>
            match r with
            | none =>
                { success := false,
                  error_msg := "请求异常: " ++ m ++ " (ID: " ++ env.requestId ++ ")",
                  input_size := env.inputBytes, output_size := 0, text := "",
                  reports := [], serviceCalls := 1 }
            | some s =>
                { success := false,
                  error_msg := "请求异常: " ++ m ++ " (ID: " ++ env.requestId ++ ")"
                      ++ " | 状态码: " ++ toString s,
                  input_size := env.inputBytes, output_size := 0, text := "",
                  reports := report_key_status_safe k.key s
                      ("Request exception: " ++ m.take 100),
                  serviceCalls := 1 }
        | .unexpectedError m =>
            { success := false,
              error_msg := "意外错误: " ++ format_exc m ++ " (ID: " ++ env.requestId ++ ")",
              input_size := env.inputBytes, output_size := 0, text := "",
              reports := report_key_status_safe k.key 500
                  ("Unexpected error: " ++ m.take 100),
              serviceCalls := 1 }

/-- `test_asr_short_audio_api`: branch outcome plus the `finally` append. -/
def test_asr_short_audio_api (env : WorkerEnv AsrBody) : WorkerOutput :=
  { appended := [mkResult env (asrBranches env)],
    reports := (asrBranches env).reports,
    serviceCalls := (asrBranches env).serviceCalls }

/-- Parsed 2xx JSON body of the translator endpoint as read by
`test_text_translation_api`: a non-empty list whose first element has a
non-empty `translations` array, a non-empty list without one, or anything
else (`dump` is `json.dumps(result_data)`). -/
inductive TranslationBody where
  | okList (text : String)
  | listNoTranslations
  | notList (dump : String)
deriving DecidableEq

/-- Body of `test_text_translation_api` (az_translation_test.py).  This worker
has no audio-file check, so `fileExists` is ignored; the credential-miss
exception text names the translation key. -/
def translationBranches (env : WorkerEnv TranslationBody) : BranchData :=
  match env.cred with
  | none =>
      { success := false,
        error_msg := "意外错误: " ++ format_exc "无法获取可用的Azure翻译密钥"
            ++ " (ID: " ++ env.requestId ++ ")",
        input_size := 0, output_size := 0, text := "", reports := [], serviceCalls := 0 }
  | some k =>
      match env.call with
      | .httpResponse status body bodyLen respText =>
          if status = 429 then
            { success := false,
              error_msg := "请求过多 (429) (ID: " ++ env.requestId ++ ")",
              input_size := env.inputBytes, output_size := 0, text := "",
              reports := report_key_status_safe k.key 429 "Rate limit exceeded",
              serviceCalls := 1 }
          else if status = 401 ∨ status = 403 ∨ status = 404 then
            { success := false,
              error_msg := "密钥无效 (" ++ toString status ++ ") (ID: "
                  ++ env.requestId ++ ")",
              input_size := env.inputBytes, output_size := 0, text := "",
              reports := report_key_status_safe k.key status
                  ("Key invalid: " ++ toString status),
              serviceCalls := 1 }
          else if 200 ≤ status ∧ status < 300 then
            match body with
            | .okList t =>
                { success := true, error_msg := "", input_size := env.inputBytes,
                  output_size := bodyLen, text := t,
                  reports := report_key_status_safe k.key 200 "Translation success",
                  serviceCalls := 1 }
            | .listNoTranslations =>
                { success := false,
                  error_msg := "翻译响应格式异常: 未找到translations (ID: "
                      ++ env.requestId ++ ")",
                  input_size := env.inputBytes, output_size := bodyLen, text := "",
                  reports := report_key_status_safe k.key 200
                      ("Translation format error: "
                        ++ ("翻译响应格式异常: 未找到translations (ID: "
                            ++ env.requestId ++ ")").take 100),
                  serviceCalls := 1 }
            | .notList dump =>
                { success := false,
                  error_msg := "翻译响应格式异常: " ++ dump.take 200
                      ++ " (ID: " ++ env.requestId ++ ")",
                  input_size := env.inputBytes, output_size := bodyLen, text := "",
                  reports := report_key_status_safe k.key 200
                      ("Translation format error: "
                        ++ ("翻译响应格式异常: " ++ dump.take 200
                            ++ " (ID: " ++ env.requestId ++ ")").take 100),
                  serviceCalls := 1 }
          else
            { success := false,
              error_msg :=
                (if respText = "" then
                  "HTTP错误 (" ++ toString status ++ ") (ID: " ++ env.requestId ++ ")"
                else
                  "HTTP错误 (" ++ toString status ++ ") (ID: " ++ env.requestId ++ ")"
                    ++ " | 响应: " ++ respText.take 200),
              input_size := env.inputBytes, output_size := 0, text := "",
              reports := report_key_status_safe k.key status
                  ("HTTP error: " ++ toString status),
              serviceCalls := 1 }
      | .timeout =>
          { success := false,
            error_msg := "请求超时 (ID: " ++ env.requestId ++ ")",
            input_size := env.inputBytes, output_size := 0, text := "",
            reports := report_key_status_safe k.key 408 "Request timeout",
            serviceCalls := 1 }
      | .transportError m r =>
          match r with
          | none =>
              { success := false,
                error_msg := "请求异常: " ++ m ++ " (ID: " ++ env.requestId ++ ")",
                input_size := env.inputBytes, output_size := 0, text := "",
                reports := [], serviceCalls := 1 }
          | some s =>
              { success := false,
                error_msg := "请求异常: " ++ m ++ " (ID: " ++ env.requestId ++ ")"
                    ++ " | 状态码: " ++ toString s,
                input_size := env.inputBytes, output_size := 0, text := "",
                reports := report_key_status_safe k.key s
                    ("Request exception: " ++ m.take 100),
                serviceCalls := 1 }
      | .unexpectedError m =>
          { success := false,
            error_msg := "意外错误: " ++ format_exc m ++ " (ID: " ++ env.requestId ++ ")",
            input_size := env.inputBytes, output_size := 0, text := "",
            reports := report_key_status_safe k.key 500
                ("Unexpected error: " ++ m.take 100),
            serviceCalls := 1 }

/-- `test_text_translation_api`: branch outcome plus the `finally` append. -/
def test_text_translation_api (env : WorkerEnv TranslationBody) : WorkerOutput :=
  { appended := [mkResult env (translationBranches env)],
    reports := (translationBranches env).reports,
    serviceCalls := (translationBranches env).serviceCalls }

/-- The spec's outcome taxonomy (§4.3 step 3 / §7), extended with the code's
extra exit paths (unexpected exception, missing input file). -/
inductive Classification where
  | success
  | rateLimited
  | credentialInvalid
  | malformedResponse
  | unclassifiedHTTPError
  | timedOut
  | transportFailure
  | unexpectedFailure
  | credentialUnavailable
  | fileMissing
deriving DecidableEq

/-- Classification of a transcription attempt, written from the spec's words
(rate-limit status, auth-failure statuses 401/403/404, 2xx with/without the
expected payload shape, other non-2xx, transport timeout, other transport
failure) to compare against the code's reporting behaviour. -/
def specClassifyTranscription (env : WorkerEnv TranscriptionBody) : Classification :=
  if env.fileExists = false then .fileMissing
  else
    match env.cred with
    | none => .credentialUnavailable
    | some _ =>
        match env.call with
        | .httpResponse status body _ _ =>
            if status = 429 then .rateLimited
            else if status = 401 ∨ status = 403 ∨ status = 404 then .credentialInvalid
            else if 200 ≤ status ∧ status < 300 then
              match body with
              | .channelsLexical _ => .success
              | .combinedText _ => .success
              | _ => .malformedResponse
            else .unclassifiedHTTPError
        | .timeout => .timedOut
        | .transportError _ _ => .transportFailure
        | .unexpectedError _ => .unexpectedFailure

/-- Call outcomes whose status report is made with a code of 200 or not made
at all, so that `report_key_status_safe` never reaches the endpoint: a
transport error with no response object attached, or one whose attached
response carries status 200 (e.g. a 200 reply with an unparsable body). -/
def transportNoEndpoint {σ : Type} : CallOutcome σ → Bool
  | .transportError _ none => true
  | .transportError _ (some s) => s == 200
  | _ => false

/-- One pass of the dispatcher loop's fire block (`if current_time >=
next_time:` in `run_test_even_rpm.dispatcher`): spawn one worker thread,
advance `next_time` by one interval and `request_id` by one, then apply the
drift correction `skips = int((current_time - next_time) / request_interval)`.
Python's `int()` truncation equals the floor here because the correction is
guarded by `current_time > next_time`, which makes the operand positive.
Returns the new `next_time`, the new `request_id`, and the number of worker
threads spawned in this pass. -/
def dispatchFire (interval now next_time : ℚ) (request_id : ℕ) : ℚ × ℕ × ℕ :=
  if now ≥ next_time then
    if now > next_time + interval then
      if 0 < ⌊(now - (next_time + interval)) / interval⌋ then
        (next_time + interval
            + ((⌊(now - (next_time + interval)) / interval⌋).toNat : ℚ) * interval,
         request_id + 1 + (⌊(now - (next_time + interval)) / interval⌋).toNat, 1)
      else (next_time + interval, request_id + 1, 1)
    else (next_time + interval, request_id + 1, 1)
  else (next_time, request_id, 0)

/-- The class-level credential slot of `AzureKeyManager`: `current_key` and
`_last_update_time`. -/
structure KeyState where
  current_key : Option Credential
  last_update_time : ℚ
deriving DecidableEq

/-- The class variables at process start: `current_key = None`,
`_last_update_time = 0`. -/
def initialKeyState : KeyState := { current_key := none, last_update_time := 0 }

/-- One observed outcome of `get_key()` inside `_update_key_periodically`:
either the JSON reply (`success` flag, optional non-empty `data` dict) or an
exception escaping the call. -/
inductive RefreshResult where
  | reply (success : Bool) (data : Option Credential)
  | exception (msg : String)
deriving DecidableEq

/-- One iteration of `_update_key_periodically`'s body: only a reply with a
truthy `success` and a truthy (present, non-empty) `data` touches the slot
(`if result.get('success') and result.get('data'):`); a failed reply or an
exception only logs. -/
def updateKeyStep (st : KeyState) (r : RefreshResult) (now : ℚ) : KeyState :=
  match r with
  | .reply true (some d) => { current_key := some d, last_update_time := now }
  | .reply _ _ => st
  | .exception _ => st

/-- The refresher loop folded over a finite trace of observed refresh
outcomes with their wall-clock times. -/
def runRefresher (st : KeyState) : List (RefreshResult × ℚ) → KeyState
  | [] => st
  | (r, now) :: rest => runRefresher (updateKeyStep st r now) rest

/-- `key_data = cls.current_key.copy()`: a fresh dict holding the same
entries as the slot. -/
def credCopy (c : Credential) : Credential := { key := c.key, region := c.region }

/-- The `for attempt in range(max_retries)` loop of
`get_azure_key_with_retry`, over the remaining attempt indices.  `obs i` is
the slot content observed under the lock at attempt `i` (the background
refresher may fill the slot between attempts).  Returns the function's
result and the number of `time.sleep(1)` calls performed (a sleep happens
after an empty observation only when `attempt < max_retries - 1`). -/
def getKeyLoop (obs : ℕ → Option Credential) (max_retries : ℕ) :
    List ℕ → Option Credential × ℕ
  | [] => (none, 0)
  | attempt :: rest =>
      match obs attempt with
      | some c => (some (credCopy c), 0)
      | none =>
          ((getKeyLoop obs max_retries rest).1,
           (if attempt < max_retries - 1 then 1 else 0)
             + (getKeyLoop obs max_retries rest).2)

/-- `get_azure_key_with_retry(region, max_retries)`: run the retry loop over
`range(max_retries)`; exhausting all attempts returns `None`. -/
def get_azure_key_with_retry (obs : ℕ → Option Credential) (max_retries : ℕ) :
    Option Credential × ℕ :=
  getKeyLoop obs max_retries (List.range max_retries)

/-- `success_count = sum(1 for r in test_results if r[0])`. -/
def successCount (results : List RequestResult) : ℕ :=
  (results.filter (fun r => r.success)).length

/-- The latencies (`r[1]`) of the successful results, in order. -/
def successLatencies (results : List RequestResult) : List ℚ :=
  (results.filter (fun r => r.success)).map (fun r => r.total_time)

/-- `total_latency = sum(r[1] for r in test_results if r[0])`. -/
def totalLatency (results : List RequestResult) : ℚ :=
  (successLatencies results).sum

/-- The summary statistics `run_test_even_rpm` computes after the drain. -/
structure RunSummary where
  total_results_recorded : ℕ
  success_count : ℕ
  error_count : ℕ
  success_rate : ℚ
  avg_request_duration_ms : ℚ
  actual_rpm : ℚ
deriving DecidableEq

/-- The statistics block of `run_test_even_rpm`: with an empty result list it
prints `未记录任何结果` and returns `None` before any statistic is computed
(`if total_results_recorded == 0: return None`); otherwise it computes the
summary, with `actual_rpm = (success_count / max(actual_duration, 0.001)) * 60`
and `avg_request_duration = total_latency * 1000 / success_count` when any
success exists, else 0. -/
def run_summary (results : List RequestResult) (actual_duration : ℚ) :
    Option RunSummary :=
  if results.length = 0 then none
  else
    some
      { total_results_recorded := results.length
        success_count := successCount results
        error_count := results.length - successCount results
        success_rate :=
          if 0 < results.length then
            ((successCount results : ℚ) / results.length) * 100
          else 0
        avg_request_duration_ms :=
          if 0 < successCount results then
            totalLatency results * 1000 / successCount results
          else 0
        actual_rpm :=
          ((successCount results : ℚ) / max actual_duration (1 / 1000)) * 60 }

/-- Arithmetic mean of a list of rationals, following the spec's words
("average latency among successes"). -/
def listMean (l : List ℚ) : ℚ := l.sum / l.length

/-- Whether the Python expression `pat in s` holds, over the character
lists: `leadsWith pat l` is "`l` starts with `pat`". -/
def leadsWith : List Char → List Char → Bool
  | [], _ => true
  | _ :: _, [] => false
  | p :: ps, c :: cs => p == c && leadsWith ps cs

/-- Substring occurrence over character lists. -/
def hasSub (pat : List Char) : List Char → Bool
  | [] => leadsWith pat []
  | c :: cs => leadsWith pat (c :: cs) || hasSub pat cs

/-- Python's `pat in s` on strings. -/
def containsSub (s pat : String) : Bool := hasSub pat.data s.data

/-- The five fixed buckets of the persisted error summary
(`429错误 / 400错误 / 超时错误 / 连接错误 / 其他错误`). -/
inductive ErrBucket where
  | b429
  | b400
  | btimeout
  | bconn
  | bother
deriving DecidableEq

/-- The `if "429" in error_msg / elif ... / else` chain of
`run_test_even_rpm` (az_asr_test.py lines 880-891) assigning one message to
one bucket. -/
def classifyErrorMsg (m : String) : ErrBucket :=
  if containsSub m "429" then .b429
  else if containsSub m "400" then .b400
  else if containsSub m.toLower "timeout" || containsSub m "超时" then .btimeout
  else if containsSub m.toLower "connection" || containsSub m "连接" then .bconn
  else .bother

/-- The error messages of the failed results that carry one
(`if not result[0] and result[5]:`), in order. -/
def failedMsgs (results : List RequestResult) : List String :=
  (results.filter (fun r => !r.success && !(r.error_msg == ""))).map
    (fun r => r.error_msg)

/-- `error_stats`: the dict mapping each distinct failing message to its
count, keys in first-occurrence order. -/
def error_stats (msgs : List String) : List (String × ℕ) :=
  msgs.dedup.map (fun m => (m, msgs.count m))

/-- The count accumulated into one bucket of `error_type_counts` by the
`for error_msg, count in error_stats.items()` loop. -/
def bucketTotal (stats : List (String × ℕ)) (b : ErrBucket) : ℕ :=
  ((stats.filter (fun p => decide (classifyErrorMsg p.1 = b))).map
    (fun p => p.2)).sum

/-- Concrete worker environment used to refute the exactly-once reporting of
`MalformedResponse`: a 200 reply whose JSON body matches neither expected
transcription shape. -/
def cxEnvMalformed : WorkerEnv TranscriptionBody :=
  { fileExists := true, inputBytes := 10, cred := some ⟨"key0", "eastasia"⟩,
    call := .httpResponse 200 (.otherShape "x") 3 "", elapsed := 0,
    requestId := "Transcription-0" }

/-- Concrete worker environment with a rate-limited (429) reply, used to
instantiate the endpoint-count theorem. -/
def wEnv429 : WorkerEnv TranscriptionBody :=
  { fileExists := true, inputBytes := 10, cred := some ⟨"key0", "eastasia"⟩,
    call := .httpResponse 429 (.otherShape "x") 0 "", elapsed := 0,
    requestId := "Transcription-1" }

/-- Concrete ASR worker environment whose service call times out. -/
def wEnvTimeout : WorkerEnv AsrBody :=
  { fileExists := true, inputBytes := 10, cred := some ⟨"key0", "eastasia"⟩,
    call := .timeout, elapsed := 0, requestId := "ASR-0" }

/-- Concrete translation worker environment whose service call times out. -/
def wEnvTimeoutT : WorkerEnv TranslationBody :=
  { fileExists := true, inputBytes := 10, cred := some ⟨"key1", "eastasia"⟩,
    call := .timeout, elapsed := 0, requestId := "TextTranslation-0" }

/-- Concrete ASR worker environment that never obtains a credential. -/
def wEnvNoCred : WorkerEnv AsrBody :=
  { fileExists := true, inputBytes := 10, cred := none,
    call := .timeout, elapsed := 0, requestId := "ASR-1" }

/-- Concrete one-element result list of a successful 2-second request. -/
def demoResults : List RequestResult :=
  [{ success := true, total_time := 2, time_to_first_chunk := none,
     input_size := 0, output_size := 0, error_msg := "",
     request_id := "i", text := "" }]

/-- C2: when, after spawning a worker and advancing `next_time` by one
interval, `current_time` is still past `next_time`, the dispatcher advances
`next_time` by exactly `skips = floor((now - next_time) / interval)` further
intervals and the request index by the same `skips`, while spawning exactly
the one worker of this pass — skipped slots are dropped, never emitted. -/
theorem dispatcher_drift_skips (interval now next_time : ℚ) (request_id : ℕ)
    (hpos : 0 < interval) (h : next_time + interval < now) :
    dispatchFire interval now next_time request_id
      = (next_time + interval
            + ((⌊(now - (next_time + interval)) / interval⌋).toNat : ℚ) * interval,
         request_id + 1 + (⌊(now - (next_time + interval)) / interval⌋).toNat, 1) := by
  have h0 : next_time ≤ now := by linarith
  have hq : (0 : ℚ) ≤ (now - (next_time + interval)) / interval :=
    le_of_lt (div_pos (by linarith) hpos)
  have hfl : (0 : ℤ) ≤ ⌊(now - (next_time + interval)) / interval⌋ :=
    Int.floor_nonneg.mpr hq
  unfold dispatchFire
  rw [if_pos h0, if_pos h]
  rcases eq_or_lt_of_le hfl with heq | hlt
  · rw [if_neg (by omega : ¬ (0 : ℤ) < ⌊(now - (next_time + interval)) / interval⌋)]
    rw [show ⌊(now - (next_time + interval)) / interval⌋ = 0 from heq.symm]
    norm_num
  · rw [if_pos hlt]

/-- Witness for C2: one concrete drift-correction pass
(interval 1, now 5/2, next fire time 0). -/
theorem dispatcher_drift_skips_witness :
    dispatchFire 1 (5 / 2) 0 0
      = (0 + 1 + ((⌊(((5 : ℚ) / 2) - (0 + 1)) / 1⌋).toNat : ℚ) * 1,
         0 + 1 + (⌊(((5 : ℚ) / 2) - (0 + 1)) / 1⌋).toNat, 1) :=
  dispatcher_drift_skips 1 (5 / 2) 0 0 (by norm_num) (by norm_num)

/-- C3: the credential slot starts empty; a successful refresh with a
non-empty payload replaces it wholesale (credential and timestamp); any
other refresh outcome leaves the whole state — credential and refresh
timestamp — unchanged; and once non-empty the slot stays non-empty through
any further trace of refresh outcomes. -/
theorem refresher_keeps_previous_on_failure :
    initialKeyState.current_key = none
    ∧ (∀ (st : KeyState) (d : Credential) (now : ℚ),
        updateKeyStep st (.reply true (some d)) now
          = { current_key := some d, last_update_time := now })
    ∧ (∀ (st : KeyState) (r : RefreshResult) (now : ℚ),
        (∀ d : Credential, r ≠ .reply true (some d)) → updateKeyStep st r now = st)
    ∧ (∀ (st : KeyState) (evs : List (RefreshResult × ℚ)) (c : Credential),
        st.current_key = some c →
          ∃ d : Credential, (runRefresher st evs).current_key = some d) := by
  refine ⟨rfl, fun st d now => rfl, ?_, ?_⟩
  · intro st r now hne
    match r with
    | .reply true (some d) => exact absurd rfl (hne d)
    | .reply true none => rfl
    | .reply false dat => rfl
    | .exception m => rfl
  · intro st evs
    induction evs generalizing st with
    | nil => exact fun c hc => ⟨c, hc⟩
    | cons e rest ih =>
      intro c hc
      obtain ⟨r, now⟩ := e
      match r with
      | .reply true (some d) =>
          exact ih { current_key := some d, last_update_time := now } d rfl
      | .reply true none => exact ih st c hc
      | .reply false dat => exact ih st c hc
      | .exception m => exact ih st c hc

/-- Witness for C3: a failed refresh reply leaves a filled slot and its
timestamp untouched. -/
theorem refresher_keeps_previous_on_failure_witness :
    updateKeyStep { current_key := some ⟨"key0", "eastasia"⟩, last_update_time := 5 }
        (.reply false none) 9
      = { current_key := some ⟨"key0", "eastasia"⟩, last_update_time := 5 } :=
  refresher_keeps_previous_on_failure.2.2.1
    { current_key := some ⟨"key0", "eastasia"⟩, last_update_time := 5 }
    (.reply false none) 9 (fun d h => by cases h)

/-- Helper: the retry loop over attempts that all observe an empty slot
returns `None` and sleeps once per attempt that is not the last of the
range. -/
theorem getKeyLoop_all_empty (obs : ℕ → Option Credential) (max_retries : ℕ)
    (l : List ℕ) (hobs : ∀ a ∈ l, obs a = none) :
    getKeyLoop obs max_retries l
      = (none, (l.filter (fun a => decide (a < max_retries - 1))).length) := by
  induction l with
  | nil => rfl
  | cons a rest ih =>
    have ha : obs a = none := hobs a (by simp)
    have ihh := ih (fun b hb => hobs b (by simp [hb]))
    simp only [getKeyLoop, ha, ihh, List.filter_cons]
    by_cases hlt : a < max_retries - 1
    · simp [hlt]
      omega
    · simp [hlt]

/-- C6: `get_azure_key_with_retry` returns, on its first attempt, a copy of a
non-empty slot (the copy holding the same entries, so mutating it cannot
change the slot) with no sleep; and when every attempt observes an empty
slot it sleeps the 1-second retry interval between consecutive attempts
(`max_retries - 1` sleeps) and returns `None`. -/
theorem get_azure_key_with_retry_spec (obs : ℕ → Option Credential)
    (max_retries : ℕ) :
    (∀ c : Credential, 0 < max_retries → obs 0 = some c →
        get_azure_key_with_retry obs max_retries = (some (credCopy c), 0)
          ∧ credCopy c = c)
    ∧ ((∀ i, i < max_retries → obs i = none) →
        get_azure_key_with_retry obs max_retries = (none, max_retries - 1)) := by
  constructor
  · intro c hpos h0
    obtain ⟨m, rfl⟩ : ∃ m, max_retries = m + 1 := ⟨max_retries - 1, by omega⟩
    refine ⟨?_, rfl⟩
    unfold get_azure_key_with_retry
    rw [List.range_succ_eq_map]
    simp only [getKeyLoop, h0]
  · intro hobs
    unfold get_azure_key_with_retry
    rw [getKeyLoop_all_empty obs _ _ (fun a ha => hobs a (List.mem_range.mp ha))]
    cases max_retries with
    | zero => rfl
    | succ m =>
      rw [List.range_succ, List.filter_append]
      rw [List.filter_eq_self.mpr (fun a ha => by
        simp only [decide_eq_true_eq]
        have := List.mem_range.mp ha
        omega)]
      simp

/-- Witness for C6: an always-empty slot with 3 retries yields `None` after
two inter-attempt sleeps; a slot already holding a credential is returned as
an equal copy with no sleep. -/
theorem get_azure_key_with_retry_spec_witness :
    get_azure_key_with_retry (fun _ => none) 3 = (none, 3 - 1)
    ∧ get_azure_key_with_retry (fun _ => some ⟨"key0", "eastasia"⟩) 3
        = (some (credCopy ⟨"key0", "eastasia"⟩), 0) :=
  ⟨(get_azure_key_with_retry_spec (fun _ => none) 3).2 (fun i _ => rfl),
   ((get_azure_key_with_retry_spec (fun _ => some ⟨"key0", "eastasia"⟩) 3).1
      ⟨"key0", "eastasia"⟩ (by norm_num) rfl).1⟩

/-- C7: with an empty result list the aggregation step yields the explicit
no-data outcome (`None`, after printing `未记录任何结果`) and never reaches
any of the division-bearing statistics. -/
theorem empty_results_no_summary (actual_duration : ℚ) :
    run_summary [] actual_duration = none := rfl

/-- C8: for a non-empty result list (and a measured duration of at least the
1 ms clamp, which any real run exceeds), the summary's achieved rate is
`success_count / actual_duration * 60`, and its reported average request
duration is the arithmetic mean of the latencies of the successful results
(in milliseconds), or 0 when there is no success. -/
theorem summary_rate_and_mean_latency (results : List RequestResult) (dur : ℚ)
    (hne : results ≠ []) (hdur : 1 / 1000 ≤ dur) :
    (run_summary results dur).map RunSummary.actual_rpm
        = some (((successCount results : ℚ) / dur) * 60)
    ∧ (run_summary results dur).map RunSummary.avg_request_duration_ms
        = some (if 0 < successCount results
                then 1000 * listMean (successLatencies results) else 0) := by
  have hlen : ¬ results.length = 0 := fun hz => hne (List.length_eq_zero.mp hz)
  unfold run_summary
  rw [if_neg hlen]
  constructor
  · simp only [Option.map_some']
    congr 2
    rw [max_eq_left hdur]
  · simp only [Option.map_some']
    congr 1
    by_cases hs : 0 < successCount results
    · rw [if_pos hs, if_pos hs]
      unfold listMean totalLatency
      have hlen2 : ((successLatencies results).length : ℚ)
          = (successCount results : ℚ) := by
        unfold successLatencies successCount
        rw [List.length_map]
      rw [hlen2, mul_comm (successLatencies results).sum 1000, mul_div_assoc]
    · rw [if_neg hs, if_neg hs]

/-- Witness for C8: a one-element all-success run of measured duration 60 s. -/
theorem summary_rate_and_mean_latency_witness :
    (run_summary demoResults 60).map RunSummary.actual_rpm
        = some (((successCount demoResults : ℚ) / 60) * 60)
    ∧ (run_summary demoResults 60).map RunSummary.avg_request_duration_ms
        = some (if 0 < successCount demoResults
                then 1000 * listMean (successLatencies demoResults) else 0) :=
  summary_rate_and_mean_latency demoResults 60 (by simp [demoResults]) (by norm_num)

/-- Helper: the five bucket totals of the error tally sum to the total count
recorded in the stats, because the if/elif chain puts every message in
exactly one bucket. -/
theorem bucketTotal_partition (stats : List (String × ℕ)) :
    bucketTotal stats .b429 + bucketTotal stats .b400 + bucketTotal stats .btimeout
      + bucketTotal stats .bconn + bucketTotal stats .bother
      = (stats.map (fun p => p.2)).sum := by
  induction stats with
  | nil => rfl
  | cons p rest ih =>
    cases hb : classifyErrorMsg p.1 <;>
      simp only [bucketTotal, List.filter_cons, hb, List.map_cons, List.sum_cons] at ih ⊢ <;>
      simp only [decide_eq_true_eq, reduceCtorEq, if_true, if_false, ite_true, ite_false,
        List.map_cons, List.sum_cons] <;>
      omega

/-- C9: every failed result carrying a non-empty error message is tallied
into exactly one of the five fixed buckets, so the five bucket counts sum to
the number of such failed results. -/
theorem error_bucket_counts_sum (results : List RequestResult) :
    bucketTotal (error_stats (failedMsgs results)) .b429
      + bucketTotal (error_stats (failedMsgs results)) .b400
      + bucketTotal (error_stats (failedMsgs results)) .btimeout
      + bucketTotal (error_stats (failedMsgs results)) .bconn
      + bucketTotal (error_stats (failedMsgs results)) .bother
      = (failedMsgs results).length := by
  rw [bucketTotal_partition]
  unfold error_stats
  rw [List.map_map]
  simpa using List.sum_map_count_dedup_eq_length (failedMsgs results)

/-- C4: every invocation of each of the three worker request functions
appends exactly one record to the shared result list, on every exit path;
the workers are total functions here, so no exception escapes them. -/
theorem worker_always_appends_exactly_once :
    (∀ env : WorkerEnv AsrBody, (test_asr_short_audio_api env).appended.length = 1)
    ∧ (∀ env : WorkerEnv TranslationBody,
        (test_text_translation_api env).appended.length = 1)
    ∧ (∀ env : WorkerEnv TranscriptionBody,
        (test_transcription_api env).appended.length = 1) :=
  ⟨fun _ => rfl, fun _ => rfl, fun _ => rfl⟩

/-- C5: when no credential can be obtained, the worker performs no call to
the target service and none to the status endpoint, and appends exactly one
failed result whose error text is the formatted credential-unavailable
exception. -/
theorem credential_unavailable_no_network_call (env : WorkerEnv AsrBody)
    (hf : env.fileExists = true) (hc : env.cred = none) :
    (test_asr_short_audio_api env).serviceCalls = 0
    ∧ (test_asr_short_audio_api env).reports = []
    ∧ (test_asr_short_audio_api env).appended
        = [{ success := false, total_time := env.elapsed, time_to_first_chunk := none,
             input_size := 0, output_size := 0,
             error_msg := "意外错误: " ++ format_exc "无法获取可用的Azure密钥"
                 ++ " (ID: " ++ env.requestId ++ ")",
             request_id := env.requestId, text := "" }] := by
  obtain ⟨fe, ib, cred, call, el, rid⟩ := env
  dsimp only at hf hc ⊢
  subst hf hc
  exact ⟨rfl, rfl, rfl⟩

/-- Witness for C5: the concrete no-credential environment. -/
theorem credential_unavailable_no_network_call_witness :
    (test_asr_short_audio_api wEnvNoCred).serviceCalls = 0
    ∧ (test_asr_short_audio_api wEnvNoCred).reports = []
    ∧ (test_asr_short_audio_api wEnvNoCred).appended
        = [{ success := false, total_time := wEnvNoCred.elapsed,
             time_to_first_chunk := none, input_size := 0, output_size := 0,
             error_msg := "意外错误: " ++ format_exc "无法获取可用的Azure密钥"
                 ++ " (ID: " ++ wEnvNoCred.requestId ++ ")",
             request_id := wEnvNoCred.requestId, text := "" }] :=
  credential_unavailable_no_network_call wEnvNoCred rfl rfl

/-- Counterexample to C1 as stated: a transcription attempt classified
`MalformedResponse`, made with a credential in hand, invokes the status
endpoint zero times (the worker reports it with code 200, which
`report_key_status_safe` short-circuits), not exactly once. -/
theorem malformed_response_reports_zero_counterexample :
    specClassifyTranscription cxEnvMalformed = .malformedResponse
    ∧ cxEnvMalformed.cred = some ⟨"key0", "eastasia"⟩
    ∧ (test_transcription_api cxEnvMalformed).reports.length = 0 :=
  ⟨rfl, rfl, rfl⟩

/-- C1 (amended): per attempt made with a credential in hand, the status
endpoint is invoked at most once, and exactly zero times precisely when the
attempt is classified `Success` or `MalformedResponse` (both reported with
code 200, a no-op of the safe wrapper) or is a transport error carrying no
response object or a response with status 200; every other non-success
classification invokes it exactly once. -/
theorem transcription_report_endpoint_counts (env : WorkerEnv TranscriptionBody)
    (k : Credential) (hc : env.cred = some k) (hf : env.fileExists = true) :
    (test_transcription_api env).reports.length ≤ 1
    ∧ ((test_transcription_api env).reports.length = 0 ↔
        (specClassifyTranscription env = .success
         ∨ specClassifyTranscription env = .malformedResponse
         ∨ transportNoEndpoint env.call = true)) := by
  obtain ⟨fe, ib, cred, call, el, rid⟩ := env
  dsimp only at hc hf
  subst hc hf
  cases call with
  | httpResponse status body bodyLen respText =>
    by_cases h1 : status = 429
    · simp [test_transcription_api, transcriptionBranches, specClassifyTranscription,
        transportNoEndpoint, report_key_status_safe, h1]
    · by_cases h2 : status = 401 ∨ status = 403 ∨ status = 404
      · have hne200 : ¬ status = 200 := by rcases h2 with h | h | h <;> omega
        simp [test_transcription_api, transcriptionBranches, specClassifyTranscription,
          transportNoEndpoint, report_key_status_safe, h1, h2, hne200]
      · by_cases h3 : 200 ≤ status ∧ status < 300
        · cases body <;>
            simp [test_transcription_api, transcriptionBranches, specClassifyTranscription,
              transportNoEndpoint, report_key_status_safe, h1, h2, h3]
        · have hne200 : ¬ status = 200 := by omega
          simp [test_transcription_api, transcriptionBranches, specClassifyTranscription,
            transportNoEndpoint, report_key_status_safe, h1, h2, h3, hne200]
  | timeout =>
    simp [test_transcription_api, transcriptionBranches, specClassifyTranscription,
      transportNoEndpoint, report_key_status_safe]
  | transportError m r =>
    cases r with
    | none =>
      simp [test_transcription_api, transcriptionBranches, specClassifyTranscription,
        transportNoEndpoint, report_key_status_safe]
    | some s =>
      by_cases hs : s = 200 <;>
        simp [test_transcription_api, transcriptionBranches, specClassifyTranscription,
          transportNoEndpoint, report_key_status_safe, hs]
  | unexpectedError m =>
    simp [test_transcription_api, transcriptionBranches, specClassifyTranscription,
      transportNoEndpoint, report_key_status_safe]

/-- Witness for the amended C1: a concrete rate-limited attempt. -/
theorem transcription_report_endpoint_counts_witness :
    (test_transcription_api wEnv429).reports.length ≤ 1
    ∧ ((test_transcription_api wEnv429).reports.length = 0 ↔
        (specClassifyTranscription wEnv429 = .success
         ∨ specClassifyTranscription wEnv429 = .malformedResponse
         ∨ transportNoEndpoint wEnv429.call = true)) :=
  transcription_report_endpoint_counts wEnv429 ⟨"key0", "eastasia"⟩ rfl rfl

/-- C10: with a credential in hand, a transport timeout is reported to the
collaborator with the synthesized code 408 and an unexpected exception with
the synthesized code 500 (in both the ASR and the translation worker), while
a non-timeout transport exception reaches the endpoint only when a response
object exists, carrying that response's own status code (and not even then
when that status is 200, which the safe wrapper swallows). -/
theorem synthesized_report_codes
    (env : WorkerEnv AsrBody) (envT : WorkerEnv TranslationBody)
    (k kT : Credential) (hc : env.cred = some k) (hf : env.fileExists = true)
    (hcT : envT.cred = some kT) :
    (env.call = .timeout →
        (test_asr_short_audio_api env).reports
          = [⟨k.key, 408, "Request timeout"⟩])
    ∧ (∀ m, env.call = .unexpectedError m →
        (test_asr_short_audio_api env).reports
          = [⟨k.key, 500, "Unexpected error: " ++ m.take 100⟩])
    ∧ (∀ m, env.call = .transportError m none →
        (test_asr_short_audio_api env).reports = [])
    ∧ (∀ m s, env.call = .transportError m (some s) →
        (test_asr_short_audio_api env).reports.map StatusReport.code
          = if s = 200 then [] else [s])
    ∧ (envT.call = .timeout →
        (test_text_translation_api envT).reports
          = [⟨kT.key, 408, "Request timeout"⟩])
    ∧ (∀ m, envT.call = .unexpectedError m →
        (test_text_translation_api envT).reports
          = [⟨kT.key, 500, "Unexpected error: " ++ m.take 100⟩])
    ∧ (∀ m, envT.call = .transportError m none →
        (test_text_translation_api envT).reports = [])
    ∧ (∀ m s, envT.call = .transportError m (some s) →
        (test_text_translation_api envT).reports.map StatusReport.code
          = if s = 200 then [] else [s]) := by
  obtain ⟨fe, ib, cred, call, el, rid⟩ := env
  obtain ⟨feT, ibT, credT, callT, elT, ridT⟩ := envT
  dsimp only at hc hf hcT ⊢
  subst hc hf hcT
  refine ⟨?_, ?_, ?_, ?_, ?_, ?_, ?_, ?_⟩
  · intro h; subst h; rfl
  · intro m h; subst h; rfl
  · intro m h; subst h; rfl
  · intro m s h; subst h
    by_cases hs : s = 200 <;>
      simp [test_asr_short_audio_api, asrBranches, report_key_status_safe, hs]
  · intro h; subst h; rfl
  · intro m h; subst h; rfl
  · intro m h; subst h; rfl
  · intro m s h; subst h
    by_cases hs : s = 200 <;>
      simp [test_text_translation_api, translationBranches, report_key_status_safe, hs]

/-- Witness for C10: the concrete timed-out ASR and translation attempts. -/
theorem synthesized_report_codes_witness :
    (test_asr_short_audio_api wEnvTimeout).reports
        = [⟨"key0", 408, "Request timeout"⟩]
    ∧ (test_text_translation_api wEnvTimeoutT).reports
        = [⟨"key1", 408, "Request timeout"⟩] :=
  ⟨(synthesized_report_codes wEnvTimeout wEnvTimeoutT ⟨"key0", "eastasia"⟩
      ⟨"key1", "eastasia"⟩ rfl rfl rfl).1 rfl,
   (synthesized_report_codes wEnvTimeout wEnvTimeoutT ⟨"key0", "eastasia"⟩
      ⟨"key1", "eastasia"⟩ rfl rfl rfl).2.2.2.2.1 rfl⟩

end AzLoad
